import Mathlib

/-!
Verification of `cvrp/ui/main.py`: the solve-job coordinator
(`ModelSolveRunnable`), the solve trigger handler (`MainWidget.on_click_solve`),
the startup routine (`launch_ui`), and the places-tab removal guard
(`PlacesTabWidget`).

The Python code is shallowly embedded as follows.  Each run of
`ModelSolveRunnable.run` (resp. `on_click_solve`, `launch_ui`) is a pure
function of a stub environment that fixes the outcome of every external
collaborator (`CVRPModel`, `solve_model`, `generate_report`, the file write,
`webbrowser.open`, `check_solvability`, `get_solvers`, the Qt calls).  The
function returns the ordered list of observable side effects (progress-bar
updates, message boxes, file writes, the progress-surface close, ...) together
with the way control leaves the routine: a normal return, or a propagating
Python exception.  Exceptions are split exactly as the code splits them:
`CVRPException` (the domain error the `except` clauses catch) versus any other
exception.
-/

/-- A Python exception as far as this file is concerned: either the domain
error `CVRPException` (which carries a user-facing `message`), or any other,
non-domain exception. -/
inductive Exc where
  | cvrp (message : String)
  | fault (message : String)
deriving DecidableEq

/-- How control leaves a Python routine: a normal return, or an exception that
escapes the routine. -/
inductive RunOutcome where
  | normal
  | escaped (e : Exc)
deriving DecidableEq

/-- Observable side effects of `ModelSolveRunnable.run`, in program order.
`progress` is one `set_bar_status` call (a `setValue` plus a `setLabelText`
queued invocation; Qt delivers queued calls from one sender in order, so one
event per call keeps the order the bar observes).  `buildCall`, `solveCall`
and `renderCall` mark the invocations of `CVRPModel`, `solve_model` and
`generate_report`.  `fileWrite path mode content` is a completed
`open(path, mode)` + `write(content)`; `viewerOpen` is `webbrowser.open`;
`sleep` is `QThread.msleep`; `errorBox` is the `QMessageBox` shown by the
`except CVRPException` handler; `barClose` is `self.bar.close()` in the
`finally` block. -/
inductive Ev where
  | progress (value : Nat) (label : String)
  | buildCall
  | solveCall
  | renderCall
  | fileWrite (path : String) (mode : String) (content : String)
  | viewerOpen (path : String)
  | sleep (ms : Nat)
  | errorBox (message : String)
  | barClose
deriving DecidableEq

/-- A wall-clock timestamp as the fields `datetime.now()` exposes to the
format codes `%Y %m %d %H %M %S`. -/
structure Timestamp where
  year : Nat
  month : Nat
  day : Nat
  hour : Nat
  minute : Nat
  second : Nat
deriving DecidableEq

/-- Zero-padded fixed-width decimal rendering: `padNum w n` is the last `w`
decimal digits of `n`, left-padded with zeros — exactly what the `strftime`
codes `%m %d %H %M %S` (width 2) produce on their in-range inputs, and what
`%Y` produces for years 1000–9999. -/
def padNum : Nat → Nat → List Char
  | 0, _ => []
  | w+1, n => padNum w (n / 10) ++ [Nat.digitChar (n % 10)]

/-- The characters of `datetime.now().strftime("%Y-%m-%d_%H.%M.%S")`. -/
def stampChars (t : Timestamp) : List Char :=
  padNum 4 t.year ++ '-' :: padNum 2 t.month ++ '-' :: padNum 2 t.day ++
    '_' :: padNum 2 t.hour ++ '.' :: padNum 2 t.minute ++ '.' :: padNum 2 t.second

/-- The string `datetime.now().strftime("%Y-%m-%d_%H.%M.%S")`. -/
def strfStamp (t : Timestamp) : String :=
  ⟨stampChars t⟩

/-- The artifact file name built in `run`:
`"report-" + datetime.now().strftime("%Y-%m-%d_%H.%M.%S") + ".html"`. -/
def reportFileName (t : Timestamp) : String :=
  "report-" ++ strfStamp t ++ ".html"

/-- The field ranges on which the embedding of `strftime` is exact: the year
has four digits (glibc `%Y` does not zero-pad years below 1000) and every
other field two.  Calendar timestamps (months 1–12, and so on) all satisfy
these bounds. -/
def tsInRange (t : Timestamp) : Prop :=
  1000 ≤ t.year ∧ t.year < 10000 ∧ t.month < 100 ∧ t.day < 100 ∧
    t.hour < 100 ∧ t.minute < 100 ∧ t.second < 100

/-- Chronological key of a timestamp: for in-range timestamps,
`tsKey t1 < tsKey t2` says `t1` is chronologically before `t2`. -/
def tsKey (t : Timestamp) : Nat :=
  ((((t.year * 100 + t.month) * 100 + t.day) * 100 + t.hour) * 100 + t.minute) * 100 + t.second

/-- The effect of `os.path.join(a, b)` for a relative second component. -/
def joinPath (a b : String) : String :=
  if a = "" then b
  else if a.endsWith "/" then a ++ b
  else a ++ "/" ++ b

/-- Stub environment for one `ModelSolveRunnable.run` job: the outcome of each
external collaborator, the current time, and the home directory
(`os.path.expanduser` of tilde).  `build` is `CVRPModel(self.network)`,
`solve` is `solve_model(model)`, `render` is `generate_report(model, result)`,
`writeRes` is the `open`/`write` pair, `viewRes` is `webbrowser.open`. -/
structure RunEnv where
  build : Except Exc Nat
  solve : Nat → Except Exc Nat
  render : Nat → Nat → Except Exc String
  writeRes : Except Exc Unit
  viewRes : Except Exc Unit
  now : Timestamp
  home : String

/-- The `try` block of `ModelSolveRunnable.run`: the side effects it emits in
order, and the exception (if any) that aborts it.  Mirrors lines 213–233 of
`cvrp/ui/main.py` statement by statement; `self.progress` is `0` and is never
reassigned, so the first `set_bar_status` call reports `0`. -/
def runTryBody (env : RunEnv) : List Ev × Option Exc :=
  match env.build with
  | .error e => ([.progress 0 "Building model...", .buildCall], some e)
  | .ok model =>
    match env.solve model with
    | .error e =>
      ([.progress 0 "Building model...", .buildCall,
        .progress 1 "Searching for a solution...", .solveCall], some e)
    | .ok result =>
      match env.render model result with
      | .error e =>
        ([.progress 0 "Building model...", .buildCall,
          .progress 1 "Searching for a solution...", .solveCall,
          .progress 2 "Generating report...", .renderCall], some e)
      | .ok report =>
        let path := joinPath env.home (reportFileName env.now)
        match env.writeRes with
        | .error e =>
          ([.progress 0 "Building model...", .buildCall,
            .progress 1 "Searching for a solution...", .solveCall,
            .progress 2 "Generating report...", .renderCall], some e)
        | .ok _ =>
          match env.viewRes with
          | .error e =>
            ([.progress 0 "Building model...", .buildCall,
              .progress 1 "Searching for a solution...", .solveCall,
              .progress 2 "Generating report...", .renderCall,
              .fileWrite path "w" report], some e)
          | .ok _ =>
            ([.progress 0 "Building model...", .buildCall,
              .progress 1 "Searching for a solution...", .solveCall,
              .progress 2 "Generating report...", .renderCall,
              .fileWrite path "w" report, .viewerOpen path, .sleep 500], none)

/-- `ModelSolveRunnable.run` (lines 212–241): run the `try` body; an escaping
`CVRPException` is caught by the `except CVRPException` handler, which shows a
critical `QMessageBox` with `exc.message` and returns normally; any other
exception is not caught and escapes `run`; in every case the `finally` block
closes the progress bar last. -/
def runJob (env : RunEnv) : List Ev × RunOutcome :=
  match runTryBody env with
  | (evs, none) => (evs ++ [.barClose], .normal)
  | (evs, some (.cvrp m)) => (evs ++ [.errorBox m, .barClose], .normal)
  | (evs, some (.fault m)) => (evs ++ [.barClose], .escaped (.fault m))

/-- The `(value, label)` pairs of the progress-bar updates in a trace. -/
def progressCalls : List Ev → List (Nat × String)
  | [] => []
  | .progress v l :: tr => (v, l) :: progressCalls tr
  | _ :: tr => progressCalls tr

/-- The messages of the error-surface (`QMessageBox`) calls in a trace. -/
def errorBoxCalls : List Ev → List String
  | [] => []
  | .errorBox m :: tr => m :: errorBoxCalls tr
  | _ :: tr => errorBoxCalls tr

/-- The `(path, mode, content)` triples of the file writes in a trace. -/
def fileWriteEvents : List Ev → List (String × String × String)
  | [] => []
  | .fileWrite p md c :: tr => (p, md, c) :: fileWriteEvents tr
  | _ :: tr => fileWriteEvents tr

/-- Number of progress-surface close calls (`self.bar.close()`) in a trace. -/
def countBarClose : List Ev → Nat
  | [] => 0
  | .barClose :: tr => countBarClose tr + 1
  | _ :: tr => countBarClose tr

/-- Number of viewer hand-offs (`webbrowser.open`) in a trace. -/
def countViewerOpen : List Ev → Nat
  | [] => 0
  | .viewerOpen _ :: tr => countViewerOpen tr + 1
  | _ :: tr => countViewerOpen tr

/-- Observable side effects of `MainWidget.on_click_solve`, in program order:
`solveSetDisabled b` is `self.solve.setDisabled(b)`; `dialogShow` is the
creation and `show()` of the `QProgressDialog`; `poolStart` is
`QThreadPool.globalInstance().start(runnable)`; `errorBox` is the
`QMessageBox` of the `except CVRPException` handler. -/
inductive UiEv where
  | solveSetDisabled (disabled : Bool)
  | dialogShow
  | poolStart
  | errorBox (message : String)
deriving DecidableEq

/-- Stub environment for one `on_click_solve` invocation: the outcome of
`self._network.check_solvability()`, of building and showing the progress
dialog, and of constructing the runnable and submitting it to the global
thread pool. -/
structure ClickEnv where
  checkSolvability : Except Exc Unit
  dialogRes : Except Exc Unit
  startRes : Except Exc Unit

/-- The `try` block of `on_click_solve` (lines 248–257): side effects in
order, plus the exception (if any) that aborts it. -/
def clickTryBody (env : ClickEnv) : List UiEv × Option Exc :=
  match env.checkSolvability with
  | .error e => ([], some e)
  | .ok _ =>
    match env.dialogRes with
    | .error e => ([], some e)
    | .ok _ =>
      match env.startRes with
      | .error e => ([.dialogShow], some e)
      | .ok _ => ([.dialogShow, .poolStart], none)

/-- `MainWidget.on_click_solve` (lines 245–266): disable the solve button,
run the `try` block, catch only `CVRPException` (showing a `QMessageBox` with
`exc.message`), and re-enable the button by the final statement — a statement
that is skipped when a non-domain exception escapes, because the handler has
no `finally`. -/
def on_click_solve (env : ClickEnv) : List UiEv × RunOutcome :=
  match clickTryBody env with
  | (evs, none) =>
    (.solveSetDisabled true :: (evs ++ [.solveSetDisabled false]), .normal)
  | (evs, some (.cvrp m)) =>
    (.solveSetDisabled true :: (evs ++ [.errorBox m, .solveSetDisabled false]), .normal)
  | (evs, some (.fault m)) =>
    (.solveSetDisabled true :: evs, .escaped (.fault m))

/-- The messages of the `QMessageBox` calls in an `on_click_solve` trace. -/
def uiErrorBoxCalls : List UiEv → List String
  | [] => []
  | .errorBox m :: tr => m :: uiErrorBoxCalls tr
  | _ :: tr => uiErrorBoxCalls tr

/-- The disabled state of the solve button after a trace replays over an
initial state: each `solveSetDisabled b` event overwrites the state. -/
def solveDisabledAfter (init : Bool) : List UiEv → Bool
  | [] => init
  | .solveSetDisabled b :: tr => solveDisabledAfter b tr
  | _ :: tr => solveDisabledAfter init tr

/-- Observable side effects of `launch_ui`, in program order:
`mainConstruct` is the construction of `MainWindow` (not yet visible);
`solversCheck` is the call to `get_solvers()`; `errorBox` is the critical
`QMessageBox`; `mainShow` is `main.show()`; `appExec` is
`sys.exit(app.exec())`, the start of the interactive session. -/
inductive AppEv where
  | mainConstruct
  | solversCheck
  | errorBox (message : String)
  | mainShow
  | appExec
deriving DecidableEq

/-- `launch_ui` (lines 300–317): construct the main window, then probe the
solver backends once; if `get_solvers()` raises `EnvironmentError` (modelled
by `Except.error ()`), show one critical message box reading
"No available solvers" and return without ever showing the window or starting
the event loop; otherwise show the window and enter the event loop. -/
def launch_ui (solversRes : Except Unit Unit) : List AppEv :=
  match solversRes with
  | .error _ => [.mainConstruct, .solversCheck, .errorBox "No available solvers"]
  | .ok _ => [.mainConstruct, .solversCheck, .mainShow, .appExec]

/-- Number of `get_solvers()` probes in a `launch_ui` trace. -/
def countSolversCheck : List AppEv → Nat
  | [] => 0
  | .solversCheck :: tr => countSolversCheck tr + 1
  | _ :: tr => countSolversCheck tr

/-- Number of error boxes in a `launch_ui` trace. -/
def countAppErrorBox : List AppEv → Nat
  | [] => 0
  | .errorBox _ :: tr => countAppErrorBox tr + 1
  | _ :: tr => countAppErrorBox tr

/-- Modelled from the spec: `Place` of `cvrp.data` (the module is not under
`src/`).  A place has a mutable display name and two real coordinates; its
equality is Python object identity, reproduced portably by an opaque id
`pid` assigned at creation (the arena-of-entities strategy the spec
describes). -/
structure Place where
  pid : Nat
  name : String
  x : Rat
  y : Rat
deriving DecidableEq

/-- Modelled from the spec: `Vehicle` of `cvrp.data` (not under `src/`): a
name and a positive real capacity, with identity-based equality via `vid`. -/
structure Vehicle where
  vid : Nat
  name : String
  capacity : Rat
deriving DecidableEq

/-- Modelled from the spec: `Network` of `cvrp.data` (not under `src/`): one
depot, an ordered list of clients (never containing the depot), and an
ordered list of vehicles. -/
structure Network where
  depot : Place
  clients : List Place
  vehicles : List Vehicle
deriving DecidableEq

/-- Python object identity (`==` on `cvrp.data` entities, which do not define
value equality): two handles denote the same object exactly when their ids
coincide. -/
def placeIs (a b : Place) : Bool :=
  a.pid == b.pid

/-- Modelled from the spec: `Network.remove_client` (not under `src/`)
removes the first identity-equal match from `clients` and is a no-op when the
place is absent; the spec records that no depot guard exists inside
`Network` itself. -/
def Network.remove_client (n : Network) (p : Place) : Network :=
  { n with clients := n.clients.eraseP (fun c => placeIs c p) }

/-- The structural invariant the spec states for every `Network`: the depot
is never a member of `clients`. -/
def depotNotClient (n : Network) : Prop :=
  ∀ c ∈ n.clients, c.pid ≠ n.depot.pid

/-- `ListTabWidget.is_selected_item_valid` (line 76): a selected item is
valid exactly when it is not `None`. -/
def is_selected_item_valid (item : Option Place) : Bool :=
  item.isSome

/-- The disabled state of the places-tab Remove button after
`PlacesTabWidget.update_action_buttons(item)` (lines 133–138): the base class
disables it when the item is invalid; then, for a valid item, the subclass
overwrites it with whether the selected place is the depot. -/
def placesRemoveDisabled (n : Network) (item : Option Place) : Bool :=
  let afterSuper := !(is_selected_item_valid item)
  match item with
  | some p => if is_selected_item_valid (some p) then placeIs p n.depot else afterSuper
  | none => afterSuper

/-- `PlacesTabWidget.on_item_remove` (lines 129–131): the handler calls
`self._network.remove_client(item.place)` unconditionally — no depot check of
its own. -/
def placesOnItemRemove (n : Network) (p : Place) : Network :=
  n.remove_client p

/-- A concrete in-range timestamp used to exercise the theorems. -/
def sampleTs : Timestamp :=
  ⟨2026, 10, 12, 9, 30, 0⟩

/-- A later concrete timestamp (one second after `sampleTs`). -/
def sampleTsLater : Timestamp :=
  ⟨2026, 10, 12, 9, 30, 1⟩

/-- A job environment in which every collaborator succeeds. -/
def okEnv : RunEnv :=
  { build := .ok 7, solve := fun _ => .ok 3, render := fun _ _ => .ok "document",
    writeRes := .ok (), viewRes := .ok (), now := sampleTs, home := "/home/user" }

/-- A job environment whose build stage raises a `CVRPException`. -/
def buildFailEnv : RunEnv :=
  { build := .error (.cvrp "No vehicles defined"), solve := fun _ => .ok 3,
    render := fun _ _ => .ok "document", writeRes := .ok (), viewRes := .ok (),
    now := sampleTs, home := "/home/user" }

/-- A job environment whose render stage raises a non-domain exception. -/
def renderFaultEnv : RunEnv :=
  { build := .ok 7, solve := fun _ => .ok 3,
    render := fun _ _ => .error (.fault "division by zero"),
    writeRes := .ok (), viewRes := .ok (), now := sampleTs, home := "/home/user" }

/-- A solve-click environment in which everything succeeds. -/
def okClickEnv : ClickEnv :=
  ⟨.ok (), .ok (), .ok ()⟩

/-- A solve-click environment whose solvability check raises a
`CVRPException`. -/
def cvrpClickEnv : ClickEnv :=
  ⟨.error (.cvrp "No clients defined"), .ok (), .ok ()⟩

/-- A solve-click environment whose solvability check raises a non-domain
exception. -/
def faultClickEnv : ClickEnv :=
  ⟨.error (.fault "attribute error"), .ok (), .ok ()⟩

/-- A concrete network: a depot, two clients, one vehicle. -/
def sampleNetwork : Network :=
  { depot := ⟨0, "Depot", 0, 0⟩,
    clients := [⟨1, "Client A", 1, 2⟩, ⟨2, "Client B", 3, 4⟩],
    vehicles := [⟨0, "Truck", 10⟩] }

/-- Lexicographic comparison of equal-length blocks with attached tails:
the blocks decide, and only on block equality do the tails. -/
theorem lex_append_iff (a : List Char) : ∀ (b : List Char), a.length = b.length →
    ∀ (c d : List Char),
    (List.Lex (· < ·) (a ++ c) (b ++ d) ↔
      List.Lex (· < ·) a b ∨ (a = b ∧ List.Lex (· < ·) c d)) := by
  induction a with
  | nil =>
    intro b hb c d
    rw [List.length_nil] at hb
    have hn : b = [] := List.eq_nil_of_length_eq_zero hb.symm
    subst hn
    simp
  | cons x a ih =>
    intro b hb c d
    cases b with
    | nil => simp at hb
    | cons y b =>
      simp only [List.length_cons, Nat.succ.injEq] at hb
      constructor
      · intro h
        cases h with
        | rel h => exact Or.inl (List.Lex.rel h)
        | cons h =>
          rcases (ih b hb c d).mp h with hab | ⟨heq, hcd⟩
          · exact Or.inl (List.Lex.cons hab)
          · subst heq
            exact Or.inr ⟨rfl, hcd⟩
      · intro h
        rcases h with h | ⟨he, hcd⟩
        · cases h with
          | rel h => exact List.Lex.rel h
          | cons h => exact List.Lex.cons ((ih b hb c d).mpr (Or.inl h))
        · obtain ⟨hxy, hab⟩ := List.cons.inj he
          subst hxy
          subst hab
          exact List.Lex.cons ((ih a rfl c d).mpr (Or.inr ⟨rfl, hcd⟩))

/-- Decimal digit characters compare exactly as the digits they denote. -/
theorem digitChar_lt_digitChar : ∀ d, d < 10 → ∀ e, e < 10 →
    (d < e ↔ Nat.digitChar d < Nat.digitChar e) := by decide

/-- A zero-padded rendering is always exactly `w` characters wide. -/
theorem padNum_length (w n : Nat) : (padNum w n).length = w := by
  induction w generalizing n with
  | zero => rfl
  | succ w ih => simp [padNum, ih]

/-- On numbers that fit the width, zero-padded renderings compare
lexicographically exactly as the numbers compare. -/
theorem padNum_lex {w : Nat} : ∀ {m n : Nat}, m < 10 ^ w → n < 10 ^ w → m < n →
    List.Lex (· < ·) (padNum w m) (padNum w n) := by
  induction w with
  | zero =>
    intro m n hm hn hmn
    simp [Nat.pow_zero] at hm hn
    omega
  | succ w ih =>
    intro m n hm hn hmn
    have hm10 : m / 10 < 10 ^ w := by
      rw [Nat.div_lt_iff_lt_mul (by norm_num)]
      calc m < 10 ^ (w + 1) := hm
        _ = 10 ^ w * 10 := by rw [Nat.pow_succ]
    have hn10 : n / 10 < 10 ^ w := by
      rw [Nat.div_lt_iff_lt_mul (by norm_num)]
      calc n < 10 ^ (w + 1) := hn
        _ = 10 ^ w * 10 := by rw [Nat.pow_succ]
    show List.Lex (· < ·) (padNum w (m / 10) ++ [Nat.digitChar (m % 10)])
      (padNum w (n / 10) ++ [Nat.digitChar (n % 10)])
    rw [lex_append_iff _ _ (by rw [padNum_length, padNum_length])]
    rcases Nat.lt_or_ge (m / 10) (n / 10) with hq | hq
    · exact Or.inl (ih hm10 hn10 hq)
    · have hq2 : m / 10 = n / 10 := by omega
      have hr : m % 10 < n % 10 := by omega
      refine Or.inr ⟨by rw [hq2], ?_⟩
      exact List.Lex.rel ((digitChar_lt_digitChar _ (Nat.mod_lt _ (by norm_num)) _
        (Nat.mod_lt _ (by norm_num))).mp hr)

/-- Width-2 specialisation of `padNum_lex`. -/
theorem padNum_lex2 {m n : Nat} (hm : m < 100) (hn : n < 100) (h : m < n) :
    List.Lex (· < ·) (padNum 2 m) (padNum 2 n) := by
  have e : (10:Nat) ^ 2 = 100 := by norm_num
  exact padNum_lex (by omega) (by omega) h

/-- Width-4 specialisation of `padNum_lex`. -/
theorem padNum_lex4 {m n : Nat} (hm : m < 10000) (hn : n < 10000) (h : m < n) :
    List.Lex (· < ·) (padNum 4 m) (padNum 4 n) := by
  have e : (10:Nat) ^ 4 = 10000 := by norm_num
  exact padNum_lex (by omega) (by omega) h

/-- A chronologically earlier in-range timestamp yields a lexicographically
smaller date stamp, whatever common tail follows both stamps. -/
theorem stamp_lex_of_key_lt {t1 t2 : Timestamp} (h1 : tsInRange t1) (h2 : tsInRange t2)
    (h : tsKey t1 < tsKey t2) (s : List Char) :
    List.Lex (· < ·) (stampChars t1 ++ s) (stampChars t2 ++ s) := by
  obtain ⟨hy1a, hy1, hmo1, hd1, hh1, hmi1, hs1⟩ := h1
  obtain ⟨hy2a, hy2, hmo2, hd2, hh2, hmi2, hs2⟩ := h2
  have hcases : t1.year < t2.year ∨ (t1.year = t2.year ∧ (t1.month < t2.month ∨
      (t1.month = t2.month ∧ (t1.day < t2.day ∨ (t1.day = t2.day ∧
      (t1.hour < t2.hour ∨ (t1.hour = t2.hour ∧ (t1.minute < t2.minute ∨
      (t1.minute = t2.minute ∧ t1.second < t2.second))))))))) := by
    unfold tsKey at h
    omega
  have hlen2 : ∀ m n : Nat, (padNum 2 m).length = (padNum 2 n).length := by
    intro m n
    rw [padNum_length, padNum_length]
  have hlen4 : ∀ m n : Nat, (padNum 4 m).length = (padNum 4 n).length := by
    intro m n
    rw [padNum_length, padNum_length]
  unfold stampChars
  simp only [List.append_assoc, List.cons_append]
  rcases hcases with hy | ⟨hy, hrest⟩
  · exact (lex_append_iff _ _ (hlen4 _ _) _ _).mpr (Or.inl (padNum_lex4 hy1 hy2 hy))
  rw [hy]
  apply List.Lex.append_left
  apply List.Lex.cons
  rcases hrest with hmo | ⟨hmo, hrest⟩
  · exact (lex_append_iff _ _ (hlen2 _ _) _ _).mpr (Or.inl (padNum_lex2 hmo1 hmo2 hmo))
  rw [hmo]
  apply List.Lex.append_left
  apply List.Lex.cons
  rcases hrest with hd | ⟨hd, hrest⟩
  · exact (lex_append_iff _ _ (hlen2 _ _) _ _).mpr (Or.inl (padNum_lex2 hd1 hd2 hd))
  rw [hd]
  apply List.Lex.append_left
  apply List.Lex.cons
  rcases hrest with hh | ⟨hh, hrest⟩
  · exact (lex_append_iff _ _ (hlen2 _ _) _ _).mpr (Or.inl (padNum_lex2 hh1 hh2 hh))
  rw [hh]
  apply List.Lex.append_left
  apply List.Lex.cons
  rcases hrest with hmi | ⟨hmi, hsec⟩
  · exact (lex_append_iff _ _ (hlen2 _ _) _ _).mpr (Or.inl (padNum_lex2 hmi1 hmi2 hmi))
  rw [hmi]
  apply List.Lex.append_left
  apply List.Lex.cons
  exact (lex_append_iff _ _ (hlen2 _ _) _ _).mpr (Or.inl (padNum_lex2 hs1 hs2 hsec))

/-- The characters of an artifact file name: the fixed prefix, the stamp, and
the fixed extension. -/
theorem reportFileName_data (t : Timestamp) :
    (reportFileName t).data =
      'r' :: 'e' :: 'p' :: 'o' :: 'r' :: 't' :: '-' ::
        (stampChars t ++ ['.', 'h', 't', 'm', 'l']) := by
  simp [reportFileName, strfStamp, String.data_append]

/-- Artifact file names are fixed-width: 31 characters for every in-range
timestamp (indeed for every timestamp of the embedding). -/
theorem reportFileName_length (t : Timestamp) : (reportFileName t).length = 31 := by
  show (reportFileName t).data.length = 31
  rw [reportFileName_data]
  simp [stampChars, padNum_length]

/-- Chronologically earlier in-range timestamps give lexicographically
smaller artifact file names. -/
theorem reportFileName_lt_of_key_lt {t1 t2 : Timestamp} (h1 : tsInRange t1)
    (h2 : tsInRange t2) (h : tsKey t1 < tsKey t2) :
    reportFileName t1 < reportFileName t2 := by
  rw [String.lt_iff_toList_lt]
  show List.Lex (· < ·) (reportFileName t1).data (reportFileName t2).data
  rw [reportFileName_data, reportFileName_data]
  apply List.Lex.cons
  apply List.Lex.cons
  apply List.Lex.cons
  apply List.Lex.cons
  apply List.Lex.cons
  apply List.Lex.cons
  apply List.Lex.cons
  exact stamp_lex_of_key_lt h1 h2 h _

/-- Lexical order of artifact file names coincides with chronological order
of their in-range timestamps. -/
theorem reportFileName_lt_iff {t1 t2 : Timestamp} (h1 : tsInRange t1)
    (h2 : tsInRange t2) :
    tsKey t1 < tsKey t2 ↔ reportFileName t1 < reportFileName t2 := by
  constructor
  · exact reportFileName_lt_of_key_lt h1 h2
  · intro h
    rcases Nat.lt_trichotomy (tsKey t1) (tsKey t2) with hlt | heq | hgt
    · exact hlt
    · exfalso
      have hts : t1 = t2 := by
        obtain ⟨hy1a, hy1, hmo1, hd1, hh1, hmi1, hs1⟩ := h1
        obtain ⟨hy2a, hy2, hmo2, hd2, hh2, hmi2, hs2⟩ := h2
        unfold tsKey at heq
        cases t1
        cases t2
        simp only [Timestamp.mk.injEq]
        simp only at heq hy1a hy1 hmo1 hd1 hh1 hmi1 hs1 hy2a hy2 hmo2 hd2 hh2 hmi2 hs2
        omega
      rw [hts] at h
      exact lt_irrefl _ h
    · exfalso
      exact lt_asymm h (reportFileName_lt_of_key_lt h2 h1 hgt)

/-- C1: for every job run by `ModelSolveRunnable.run` — whichever terminal
outcome is reached: success, domain failure (`CVRPException` from any stage),
or an unexpected fault raised by any pipeline stage, the file write, or the
viewer hand-off — the cleanup action `self.bar.close()` fires exactly once,
and it fires on every exit path, as the final action, including the paths on
which an exception is thrown. -/
theorem run_cleanup_exactly_once (env : RunEnv) :
    countBarClose (runJob env).1 = 1 ∧ (runJob env).1.getLast? = some Ev.barClose := by
  cases hb : env.build with
  | error e =>
    cases e <;> simp [runJob, runTryBody, hb, countBarClose]
  | ok model =>
    cases hs : env.solve model with
    | error e => cases e <;> simp [runJob, runTryBody, hb, hs, countBarClose]
    | ok result =>
      cases hr : env.render model result with
      | error e => cases e <;> simp [runJob, runTryBody, hb, hs, hr, countBarClose]
      | ok report =>
        cases hw : env.writeRes with
        | error e => cases e <;> simp [runJob, runTryBody, hb, hs, hr, hw, countBarClose]
        | ok u =>
          cases hv : env.viewRes with
          | error e =>
            cases e <;> simp [runJob, runTryBody, hb, hs, hr, hw, hv, countBarClose]
          | ok v => simp [runJob, runTryBody, hb, hs, hr, hw, hv, countBarClose]

/-- C2: when build, solve and render all succeed (and so do the write and the
viewer hand-off), `run` emits the progress calls exactly in the order
`(0, Building model...)`, `(1, Searching for a solution...)`,
`(2, Generating report...)`, each immediately before the stage it describes
(visible in the full trace equation), writes exactly one artifact file,
closes the progress surface exactly once, and shows no error box. -/
theorem run_success_behavior (env : RunEnv) (model result : Nat) (doc : String)
    (hb : env.build = Except.ok model) (hs : env.solve model = Except.ok result)
    (hr : env.render model result = Except.ok doc)
    (hw : env.writeRes = Except.ok ()) (hv : env.viewRes = Except.ok ()) :
    runJob env =
      ([Ev.progress 0 "Building model...", Ev.buildCall,
        Ev.progress 1 "Searching for a solution...", Ev.solveCall,
        Ev.progress 2 "Generating report...", Ev.renderCall,
        Ev.fileWrite (joinPath env.home (reportFileName env.now)) "w" doc,
        Ev.viewerOpen (joinPath env.home (reportFileName env.now)), Ev.sleep 500,
        Ev.barClose], RunOutcome.normal)
    ∧ progressCalls (runJob env).1 =
        [(0, "Building model..."), (1, "Searching for a solution..."),
          (2, "Generating report...")]
    ∧ fileWriteEvents (runJob env).1 =
        [(joinPath env.home (reportFileName env.now), "w", doc)]
    ∧ countBarClose (runJob env).1 = 1
    ∧ errorBoxCalls (runJob env).1 = [] := by
  have htr : runJob env =
      ([Ev.progress 0 "Building model...", Ev.buildCall,
        Ev.progress 1 "Searching for a solution...", Ev.solveCall,
        Ev.progress 2 "Generating report...", Ev.renderCall,
        Ev.fileWrite (joinPath env.home (reportFileName env.now)) "w" doc,
        Ev.viewerOpen (joinPath env.home (reportFileName env.now)), Ev.sleep 500,
        Ev.barClose], RunOutcome.normal) := by
    simp [runJob, runTryBody, hb, hs, hr, hw, hv]
  refine ⟨htr, ?_, ?_, ?_, ?_⟩ <;> rw [htr] <;> rfl

/-- Witness for C2 at a concrete all-success environment. -/
theorem run_success_behavior_witness :
    okEnv.build = Except.ok 7 ∧ okEnv.solve 7 = Except.ok 3 ∧
    okEnv.render 7 3 = Except.ok "document" ∧ okEnv.writeRes = Except.ok () ∧
    okEnv.viewRes = Except.ok () ∧
    (runJob okEnv =
      ([Ev.progress 0 "Building model...", Ev.buildCall,
        Ev.progress 1 "Searching for a solution...", Ev.solveCall,
        Ev.progress 2 "Generating report...", Ev.renderCall,
        Ev.fileWrite (joinPath okEnv.home (reportFileName okEnv.now)) "w" "document",
        Ev.viewerOpen (joinPath okEnv.home (reportFileName okEnv.now)), Ev.sleep 500,
        Ev.barClose], RunOutcome.normal)
    ∧ progressCalls (runJob okEnv).1 =
        [(0, "Building model..."), (1, "Searching for a solution..."),
          (2, "Generating report...")]
    ∧ fileWriteEvents (runJob okEnv).1 =
        [(joinPath okEnv.home (reportFileName okEnv.now), "w", "document")]
    ∧ countBarClose (runJob okEnv).1 = 1
    ∧ errorBoxCalls (runJob okEnv).1 = []) :=
  ⟨rfl, rfl, rfl, rfl, rfl, run_success_behavior okEnv 7 3 "document" rfl rfl rfl rfl rfl⟩

/-- C3 counterexample: the claim states that a non-domain fault in the render
stage does not propagate past `run`.  At the concrete environment
`renderFaultEnv` the render stage raises a non-domain exception, and `run`
does not return: the exception escapes (only `CVRPException` is caught) —
even though the cleanup call still fires exactly once. -/
theorem run_render_fault_escape_counterexample :
    (runJob renderFaultEnv).2 = RunOutcome.escaped (Exc.fault "division by zero")
    ∧ (runJob renderFaultEnv).2 ≠ RunOutcome.normal
    ∧ countBarClose (runJob renderFaultEnv).1 = 1 :=
  ⟨rfl, by decide, rfl⟩

/-- C3 (amended): for every job whose build and solve stages succeed and
whose render stage raises a non-domain error, `run` still performs exactly
one cleanup call, as the final action — but the error is not caught (the
`except` clause only matches `CVRPException`), so it propagates out of
`run`. -/
theorem run_render_fault_cleanup (env : RunEnv) (model result : Nat) (m : String)
    (hb : env.build = Except.ok model) (hs : env.solve model = Except.ok result)
    (hr : env.render model result = Except.error (Exc.fault m)) :
    countBarClose (runJob env).1 = 1
    ∧ (runJob env).1.getLast? = some Ev.barClose
    ∧ (runJob env).2 = RunOutcome.escaped (Exc.fault m) := by
  simp [runJob, runTryBody, hb, hs, hr, countBarClose]

/-- Witness for the amended C3 at a concrete faulting environment. -/
theorem run_render_fault_cleanup_witness :
    renderFaultEnv.build = Except.ok 7 ∧ renderFaultEnv.solve 7 = Except.ok 3 ∧
    renderFaultEnv.render 7 3 = Except.error (Exc.fault "division by zero") ∧
    (countBarClose (runJob renderFaultEnv).1 = 1
    ∧ (runJob renderFaultEnv).1.getLast? = some Ev.barClose
    ∧ (runJob renderFaultEnv).2 = RunOutcome.escaped (Exc.fault "division by zero")) :=
  ⟨rfl, rfl, rfl,
    run_render_fault_cleanup renderFaultEnv 7 3 "division by zero" rfl rfl rfl⟩

/-- C4: for every job whose build stage raises a `CVRPException`, `run`
produces the progress sequence truncated to `(0, Building model...)`, exactly
one error box carrying the exception message, no file write, exactly one
cleanup call, and no invocation of the solve, render, persist or hand-off
steps. -/
theorem run_build_domain_failure (env : RunEnv) (m : String)
    (hb : env.build = Except.error (Exc.cvrp m)) :
    runJob env = ([Ev.progress 0 "Building model...", Ev.buildCall,
        Ev.errorBox m, Ev.barClose], RunOutcome.normal)
    ∧ progressCalls (runJob env).1 = [(0, "Building model...")]
    ∧ errorBoxCalls (runJob env).1 = [m]
    ∧ fileWriteEvents (runJob env).1 = []
    ∧ countBarClose (runJob env).1 = 1
    ∧ Ev.solveCall ∉ (runJob env).1
    ∧ Ev.renderCall ∉ (runJob env).1
    ∧ countViewerOpen (runJob env).1 = 0 := by
  have htr : runJob env = ([Ev.progress 0 "Building model...", Ev.buildCall,
      Ev.errorBox m, Ev.barClose], RunOutcome.normal) := by
    simp [runJob, runTryBody, hb]
  refine ⟨htr, ?_, ?_, ?_, ?_, ?_, ?_, ?_⟩ <;> rw [htr] <;> first | rfl | simp

/-- Witness for C4 at a concrete environment whose build stage fails with a
domain exception. -/
theorem run_build_domain_failure_witness :
    buildFailEnv.build = Except.error (Exc.cvrp "No vehicles defined") ∧
    (runJob buildFailEnv = ([Ev.progress 0 "Building model...", Ev.buildCall,
        Ev.errorBox "No vehicles defined", Ev.barClose], RunOutcome.normal)
    ∧ progressCalls (runJob buildFailEnv).1 = [(0, "Building model...")]
    ∧ errorBoxCalls (runJob buildFailEnv).1 = ["No vehicles defined"]
    ∧ fileWriteEvents (runJob buildFailEnv).1 = []
    ∧ countBarClose (runJob buildFailEnv).1 = 1
    ∧ Ev.solveCall ∉ (runJob buildFailEnv).1
    ∧ Ev.renderCall ∉ (runJob buildFailEnv).1
    ∧ countViewerOpen (runJob buildFailEnv).1 = 0) :=
  ⟨rfl, run_build_domain_failure buildFailEnv "No vehicles defined" rfl⟩

/-- C5: for every network satisfying the depot-membership invariant,
`remove_client(depot)` is a no-op (the depot is never removed, because it is
never an element of `clients` and removal is by identity); the presentation
layer carries the rejection: `PlacesTabWidget.update_action_buttons` leaves
the Remove button disabled exactly when the selected place is the depot (and
when nothing is selected), while `on_item_remove` itself calls
`remove_client` unconditionally, with no depot check of its own. -/
theorem depot_removal_guard (n : Network) (p : Place) (h : depotNotClient n) :
    n.remove_client n.depot = n
    ∧ placesRemoveDisabled n (some p) = placeIs p n.depot
    ∧ placesRemoveDisabled n none = true
    ∧ placesOnItemRemove n p = n.remove_client p := by
  refine ⟨?_, ?_, rfl, rfl⟩
  · unfold Network.remove_client
    have he : n.clients.eraseP (fun c => placeIs c n.depot) = n.clients := by
      apply List.eraseP_of_forall_not
      intro c hc
      simp only [placeIs, beq_iff_eq]
      exact h c hc
    rw [he]
  · simp [placesRemoveDisabled, is_selected_item_valid]

/-- Witness for C5 at a concrete network, with the depot itself selected. -/
theorem depot_removal_guard_witness :
    depotNotClient sampleNetwork ∧
    (sampleNetwork.remove_client sampleNetwork.depot = sampleNetwork
    ∧ placesRemoveDisabled sampleNetwork (some sampleNetwork.depot) =
        placeIs sampleNetwork.depot sampleNetwork.depot
    ∧ placesRemoveDisabled sampleNetwork none = true
    ∧ placesOnItemRemove sampleNetwork sampleNetwork.depot =
        sampleNetwork.remove_client sampleNetwork.depot) :=
  ⟨by unfold depotNotClient; decide, depot_removal_guard sampleNetwork sampleNetwork.depot (by unfold depotNotClient; decide)⟩

/-- C6: whenever `check_solvability` raises a `CVRPException`, the job never
starts: `on_click_solve` creates no progress dialog, submits nothing to the
thread pool, and shows exactly one error box carrying the exception message,
immediately after disabling the button and immediately before re-enabling
it. -/
theorem click_validation_failure (env : ClickEnv) (m : String)
    (h : env.checkSolvability = Except.error (Exc.cvrp m)) :
    on_click_solve env =
      ([UiEv.solveSetDisabled true, UiEv.errorBox m, UiEv.solveSetDisabled false],
        RunOutcome.normal)
    ∧ UiEv.dialogShow ∉ (on_click_solve env).1
    ∧ UiEv.poolStart ∉ (on_click_solve env).1
    ∧ uiErrorBoxCalls (on_click_solve env).1 = [m] := by
  have htr : on_click_solve env =
      ([UiEv.solveSetDisabled true, UiEv.errorBox m, UiEv.solveSetDisabled false],
        RunOutcome.normal) := by
    simp [on_click_solve, clickTryBody, h]
  refine ⟨htr, ?_, ?_, ?_⟩ <;> rw [htr] <;> first | rfl | simp

/-- Witness for C6 at a concrete failing solvability check. -/
theorem click_validation_failure_witness :
    cvrpClickEnv.checkSolvability = Except.error (Exc.cvrp "No clients defined") ∧
    (on_click_solve cvrpClickEnv =
      ([UiEv.solveSetDisabled true, UiEv.errorBox "No clients defined",
        UiEv.solveSetDisabled false], RunOutcome.normal)
    ∧ UiEv.dialogShow ∉ (on_click_solve cvrpClickEnv).1
    ∧ UiEv.poolStart ∉ (on_click_solve cvrpClickEnv).1
    ∧ uiErrorBoxCalls (on_click_solve cvrpClickEnv).1 = ["No clients defined"]) :=
  ⟨rfl, click_validation_failure cvrpClickEnv "No clients defined" rfl⟩

/-- C9: on every invocation that either submits the job (all Qt calls
succeed; the submission is fire-and-forget — the handler finishes without
any dependence on the job itself) or fails pre-flight validation with a
`CVRPException`, `on_click_solve` disables the solve button as its first
action and re-enables it as its last action before returning normally. -/
theorem click_disable_reenable (env : ClickEnv)
    (h : (env.checkSolvability = Except.ok () ∧ env.dialogRes = Except.ok () ∧
          env.startRes = Except.ok ()) ∨
         (∃ m, env.checkSolvability = Except.error (Exc.cvrp m))) :
    (on_click_solve env).1.head? = some (UiEv.solveSetDisabled true)
    ∧ (on_click_solve env).1.getLast? = some (UiEv.solveSetDisabled false)
    ∧ (on_click_solve env).2 = RunOutcome.normal
    ∧ ((env.checkSolvability = Except.ok () ∧ env.dialogRes = Except.ok () ∧
        env.startRes = Except.ok ()) →
        on_click_solve env =
          ([UiEv.solveSetDisabled true, UiEv.dialogShow, UiEv.poolStart,
            UiEv.solveSetDisabled false], RunOutcome.normal)) := by
  rcases h with ⟨h1, h2, h3⟩ | ⟨m, h1⟩
  · simp [on_click_solve, clickTryBody, h1, h2, h3]
  · simp [on_click_solve, clickTryBody, h1]

/-- Witness for C9 at a concrete all-success click environment. -/
theorem click_disable_reenable_witness :
    okClickEnv.checkSolvability = Except.ok () ∧
    ((on_click_solve okClickEnv).1.head? = some (UiEv.solveSetDisabled true)
    ∧ (on_click_solve okClickEnv).1.getLast? = some (UiEv.solveSetDisabled false)
    ∧ (on_click_solve okClickEnv).2 = RunOutcome.normal
    ∧ ((okClickEnv.checkSolvability = Except.ok () ∧ okClickEnv.dialogRes = Except.ok () ∧
        okClickEnv.startRes = Except.ok ()) →
        on_click_solve okClickEnv =
          ([UiEv.solveSetDisabled true, UiEv.dialogShow, UiEv.poolStart,
            UiEv.solveSetDisabled false], RunOutcome.normal))) :=
  ⟨rfl, click_disable_reenable okClickEnv (Or.inl ⟨rfl, rfl, rfl⟩)⟩

/-- C10: when any non-domain exception is raised inside the guarded block of
`on_click_solve` — by `check_solvability`, by building the dialog, or by the
runnable submission — the exception propagates out of the handler (the
`except` clause only matches `CVRPException`), the re-enable statement is
skipped, and replaying the emitted trace from any initial button state leaves
the solve button disabled. -/
theorem click_fault_leaves_disabled (env : ClickEnv) (m : String)
    (h : env.checkSolvability = Except.error (Exc.fault m) ∨
         (env.checkSolvability = Except.ok () ∧
          env.dialogRes = Except.error (Exc.fault m)) ∨
         (env.checkSolvability = Except.ok () ∧ env.dialogRes = Except.ok () ∧
          env.startRes = Except.error (Exc.fault m))) :
    (on_click_solve env).2 = RunOutcome.escaped (Exc.fault m)
    ∧ UiEv.solveSetDisabled false ∉ (on_click_solve env).1
    ∧ (∀ b : Bool, solveDisabledAfter b (on_click_solve env).1 = true) := by
  rcases h with h1 | ⟨h1, h2⟩ | ⟨h1, h2, h3⟩
  · simp [on_click_solve, clickTryBody, h1, solveDisabledAfter]
  · simp [on_click_solve, clickTryBody, h1, h2, solveDisabledAfter]
  · simp [on_click_solve, clickTryBody, h1, h2, h3, solveDisabledAfter]

/-- Witness for C10 at a concrete environment whose solvability check raises
a non-domain exception. -/
theorem click_fault_leaves_disabled_witness :
    faultClickEnv.checkSolvability = Except.error (Exc.fault "attribute error") ∧
    ((on_click_solve faultClickEnv).2 = RunOutcome.escaped (Exc.fault "attribute error")
    ∧ UiEv.solveSetDisabled false ∉ (on_click_solve faultClickEnv).1
    ∧ (∀ b : Bool, solveDisabledAfter b (on_click_solve faultClickEnv).1 = true)) :=
  ⟨rfl, click_fault_leaves_disabled faultClickEnv "attribute error" (Or.inl rfl)⟩

/-- C7: every successful job writes exactly one artifact, at the path
obtained by joining the home directory with the file name
`report-<year>-<month>-<day>_<hour>.<minute>.<second>.html` built from the
current timestamp, opened in create/truncate text mode (`"w"`), with content
equal to the rendered document; the name is fixed-width (31 characters), so
lexical order of names coincides with chronological order of in-range
timestamps. -/
theorem artifact_path_format_order (env : RunEnv) (model result : Nat) (doc : String)
    (t1 t2 : Timestamp)
    (hb : env.build = Except.ok model) (hs : env.solve model = Except.ok result)
    (hr : env.render model result = Except.ok doc)
    (hw : env.writeRes = Except.ok ()) (hv : env.viewRes = Except.ok ())
    (h1 : tsInRange t1) (h2 : tsInRange t2) :
    fileWriteEvents (runJob env).1 =
      [(joinPath env.home (reportFileName env.now), "w", doc)]
    ∧ (reportFileName t1).length = 31
    ∧ (tsKey t1 < tsKey t2 ↔ reportFileName t1 < reportFileName t2) := by
  refine ⟨?_, reportFileName_length t1, reportFileName_lt_iff h1 h2⟩
  have htr : runJob env =
      ([Ev.progress 0 "Building model...", Ev.buildCall,
        Ev.progress 1 "Searching for a solution...", Ev.solveCall,
        Ev.progress 2 "Generating report...", Ev.renderCall,
        Ev.fileWrite (joinPath env.home (reportFileName env.now)) "w" doc,
        Ev.viewerOpen (joinPath env.home (reportFileName env.now)), Ev.sleep 500,
        Ev.barClose], RunOutcome.normal) := by
    simp [runJob, runTryBody, hb, hs, hr, hw, hv]
  rw [htr]
  rfl

/-- Witness for C7 at a concrete all-success environment and two concrete
in-range timestamps one second apart. -/
theorem artifact_path_format_order_witness :
    okEnv.build = Except.ok 7 ∧ tsInRange sampleTs ∧ tsInRange sampleTsLater ∧
    (fileWriteEvents (runJob okEnv).1 =
      [(joinPath okEnv.home (reportFileName okEnv.now), "w", "document")]
    ∧ (reportFileName sampleTs).length = 31
    ∧ (tsKey sampleTs < tsKey sampleTsLater ↔
        reportFileName sampleTs < reportFileName sampleTsLater)) :=
  ⟨rfl, by unfold tsInRange; decide, by unfold tsInRange; decide,
    artifact_path_format_order okEnv 7 3 "document" sampleTs sampleTsLater
      rfl rfl rfl rfl rfl (by unfold tsInRange; decide) (by unfold tsInRange; decide)⟩

/-- C8: `launch_ui` probes the solver backends exactly once, after
constructing (but before showing) the main window; when no backend is
available it shows a single error box reading "No available solvers" and
returns — the main window is never shown and the interactive session
(`app.exec`) never starts; otherwise the window is shown and the session
starts, with the probe strictly before both. -/
theorem startup_backend_check (r : Except Unit Unit) :
    countSolversCheck (launch_ui r) = 1
    ∧ launch_ui (Except.error ()) =
        [AppEv.mainConstruct, AppEv.solversCheck, AppEv.errorBox "No available solvers"]
    ∧ countAppErrorBox (launch_ui (Except.error ())) = 1
    ∧ AppEv.mainShow ∉ launch_ui (Except.error ())
    ∧ AppEv.appExec ∉ launch_ui (Except.error ())
    ∧ launch_ui (Except.ok ()) =
        [AppEv.mainConstruct, AppEv.solversCheck, AppEv.mainShow, AppEv.appExec] := by
  refine ⟨?_, rfl, rfl, by decide, by decide, rfl⟩
  cases r with
  | error u => rfl
  | ok u => rfl
